import Mathlib

/-!
Verification of the hidden-service overlay engine
(`ipv8/messaging/anonymization/hidden_services.py`, class `HiddenTunnelCommunity`).

The Python dictionaries of the engine are embedded as association lists;
handlers become pure state-transition functions that also return the list of
outward effects (cells sent, tunnelled payloads, substrate calls).  Python
code that can raise an uncaught exception is embedded in `Except String`,
with `.error` marking the exception escaping the handler.
-/

set_option autoImplicit false
set_option maxRecDepth 100000

namespace HiddenServices

/-! ## Association-list dictionaries

Python `dict` / `defaultdict` operations used by the source: lookup,
assignment (replace-or-append), `pop`, containment. -/

def lookupA {α β : Type} [DecidableEq α] : List (α × β) → α → Option β
  | [], _ => none
  | (k, v) :: t, a => if k = a then some v else lookupA t a

def insertA {α β : Type} [DecidableEq α] : List (α × β) → α → β → List (α × β)
  | [], a, b => [(a, b)]
  | (k, v) :: t, a, b => if k = a then (a, b) :: t else (k, v) :: insertA t a b

def eraseA {α β : Type} [DecidableEq α] (l : List (α × β)) (a : α) : List (α × β) :=
  l.filter (fun p => decide (p.1 ≠ a))

/-- Python `set.add`: insert if not already present. -/
def addSet {α : Type} [DecidableEq α] (l : List α) (x : α) : List α :=
  if x ∈ l then l else l ++ [x]

theorem lookupA_insertA_self {α β : Type} [DecidableEq α] (l : List (α × β)) (a : α) (b : β) :
    lookupA (insertA l a b) a = some b := by
  induction l with
  | nil => simp [insertA, lookupA]
  | cons h t ih =>
    by_cases hk : h.1 = a
    · simp [insertA, hk, lookupA]
    · simp [insertA, hk, lookupA, ih]

theorem lookupA_insertA_ne {α β : Type} [DecidableEq α] (l : List (α × β)) (a a' : α) (b : β)
    (h : a ≠ a') : lookupA (insertA l a b) a' = lookupA l a' := by
  induction l with
  | nil => simp [insertA, lookupA, h]
  | cons hd t ih =>
    by_cases hk : hd.1 = a
    · simp [insertA, hk, lookupA, h, Ne.symm h]
    · by_cases hk' : hd.1 = a'
      · simp [insertA, hk, lookupA, hk', Ne.symm h]
      · simp [insertA, hk, lookupA, hk', ih]

theorem lookupA_eraseA_self {α β : Type} [DecidableEq α] (l : List (α × β)) (a : α) :
    lookupA (eraseA l a) a = none := by
  induction l with
  | nil => simp [eraseA, lookupA]
  | cons h t ih =>
    by_cases hk : h.1 = a
    · simpa [eraseA, hk, lookupA] using ih
    · simpa [eraseA, List.filter, hk, lookupA] using ih

/-! ## SHA1 (RFC 3174), over byte lists

Needed because `get_lookup_info_hash` is
`hashlib.sha1('tribler anonymous download' + info_hash.encode('hex')).digest()`. -/

abbrev Bytes := List Nat

def rotl32 (n x : Nat) : Nat :=
  (((x <<< n) % 2 ^ 32) ||| (x >>> (32 - n)))

def toBytesBE : Nat → Nat → Bytes
  | 0, _ => []
  | n + 1, x => toBytesBE n (x / 256) ++ [x % 256]

theorem toBytesBE_length (n x : Nat) : (toBytesBE n x).length = n := by
  induction n generalizing x with
  | zero => rfl
  | succ k ih => simp [toBytesBE, ih]

/-- Split a byte string into 64-byte blocks (fuel-based so that the kernel
can evaluate it; the fuel `l.length` always suffices). -/
def chunks64Go : Nat → Bytes → List Bytes
  | 0, _ => []
  | _, [] => []
  | fuel + 1, l@(_ :: _) => l.take 64 :: chunks64Go fuel (l.drop 64)

def chunks64 (l : Bytes) : List Bytes := chunks64Go l.length l

/-- SHA1 message padding: a 0x80 byte, zeros to 56 mod 64, 8-byte big-endian bit length. -/
def sha1pad (m : Bytes) : Bytes :=
  m ++ [0x80] ++ List.replicate ((119 - m.length % 64) % 64) 0 ++ toBytesBE 8 (8 * m.length)

/-- The sixteen 32-bit big-endian words of a 64-byte block. -/
def wordsOf (chunk : Bytes) : List Nat :=
  (List.range 16).map (fun i =>
    (chunk.getD (4 * i) 0) <<< 24 + (chunk.getD (4 * i + 1) 0) <<< 16 +
    (chunk.getD (4 * i + 2) 0) <<< 8 + chunk.getD (4 * i + 3) 0)

/-- Extend sixteen words to eighty via the SHA1 recurrence. -/
def extendWords (ws : List Nat) : List Nat :=
  (List.range 64).foldl (fun acc _ =>
    let n := acc.length
    acc ++ [rotl32 1 ((acc.getD (n - 3) 0) ^^^ (acc.getD (n - 8) 0) ^^^
                      (acc.getD (n - 14) 0) ^^^ (acc.getD (n - 16) 0))]) ws

structure Sha1State where
  h0 : Nat
  h1 : Nat
  h2 : Nat
  h3 : Nat
  h4 : Nat
  deriving DecidableEq, Repr

def sha1f (i b c d : Nat) : Nat :=
  if i < 20 then (b &&& c) ||| ((b ^^^ 0xFFFFFFFF) &&& d)
  else if i < 40 then b ^^^ c ^^^ d
  else if i < 60 then (b &&& c) ||| (b &&& d) ||| (c &&& d)
  else b ^^^ c ^^^ d

def sha1k (i : Nat) : Nat :=
  if i < 20 then 0x5A827999
  else if i < 40 then 0x6ED9EBA1
  else if i < 60 then 0x8F1BBCDC
  else 0xCA62C1D6

def sha1compress (st : Sha1State) (chunk : Bytes) : Sha1State :=
  let ws := extendWords (wordsOf chunk)
  let r := ((List.range 80).zip ws).foldl
    (fun abcde iw =>
      let (a, b, c, d, e) := abcde
      ((rotl32 5 a + sha1f iw.1 b c d + e + sha1k iw.1 + iw.2) % 2 ^ 32,
       a, rotl32 30 b, c, d))
    (st.h0, st.h1, st.h2, st.h3, st.h4)
  ⟨(st.h0 + r.1) % 2 ^ 32, (st.h1 + r.2.1) % 2 ^ 32, (st.h2 + r.2.2.1) % 2 ^ 32,
   (st.h3 + r.2.2.2.1) % 2 ^ 32, (st.h4 + r.2.2.2.2) % 2 ^ 32⟩

def sha1start : Sha1State := ⟨0x67452301, 0xEFCDAB89, 0x98BADCFE, 0x10325476, 0xC3D2E1F0⟩

def sha1 (m : Bytes) : Bytes :=
  let fin := (chunks64 (sha1pad m)).foldl sha1compress sha1start
  toBytesBE 4 fin.h0 ++ toBytesBE 4 fin.h1 ++ toBytesBE 4 fin.h2 ++
  toBytesBE 4 fin.h3 ++ toBytesBE 4 fin.h4

theorem sha1_length (m : Bytes) : (sha1 m).length = 20 := by
  simp [sha1, toBytesBE_length]

/-- ASCII bytes of a string literal. -/
def strBytes (s : String) : Bytes := s.data.map Char.toNat

/-- Lowercase hex digit, as its ASCII byte (Python 2 `str.encode('hex')`). -/
def hexDigitChar (n : Nat) : Nat := if n < 10 then 48 + n else 87 + n

def hexEncode (b : Bytes) : Bytes :=
  (b.map (fun x => [hexDigitChar (x / 16), hexDigitChar (x % 16)])).flatten

/-- `get_lookup_info_hash` (hidden_services.py:574): SHA1 of the fixed prefix
concatenated with the hex encoding of the service identifier. -/
def get_lookup_info_hash (info_hash : Bytes) : Bytes :=
  sha1 (strBytes "tribler anonymous download" ++ hexEncode info_hash)

/-- SHA1 sanity check against the RFC 3174 test vector for "abc". -/
theorem sha1_abc :
    sha1 (strBytes "abc") =
      [0xa9, 0x99, 0x3e, 0x36, 0x47, 0x06, 0x81, 0x6a, 0xba, 0x3e,
       0x25, 0x71, 0x78, 0x50, 0xc2, 0x6c, 0x9c, 0xd0, 0xd8, 0x9d] := by decide

/-! ## Data model

Circuit ids, socket addresses, the substrate objects the engine touches
(`TunnelExitSocket`, `RelayRoute`, `Circuit`), and the engine tables of
`HiddenTunnelCommunity.__init__`. -/

abbrev CircuitId := Nat

abbrev SockAddr := Nat × Nat

structure TunnelExitSocket where
  circuit_id : CircuitId
  sock_addr : SockAddr
  mid : Bytes
  enabled : Bool
  deriving DecidableEq, Repr

/-- `RelayRoute(circuit_id, sock_addr, rendezvous_relay, mid=...)`: the third
positional argument is the rendezvous flag (spec §6 substrate contract). -/
structure RelayRoute where
  circuit_id : CircuitId
  sock_addr : SockAddr
  rendezvous_relay : Bool
  mid : Bytes
  deriving DecidableEq, Repr

structure Circuit where
  circuit_id : CircuitId
  sock_addr : SockAddr
  goal_hops : Nat
  deriving DecidableEq, Repr

structure Peer where
  key : Bytes
  addr : SockAddr
  deriving DecidableEq, Repr

/-- A curve25519 keypair held in `session_keys`; `pub` is what
`key.pub().key_to_bin()` serialises. -/
structure SessionKey where
  pub : Bytes
  deriving DecidableEq, Repr

/-- The per-circuit session-key quad; only the EXIT_NODE halves are read by
the handlers modelled here. -/
structure SessionKeys where
  exit_node : Bytes
  exit_node_salt : Bytes
  deriving DecidableEq, Repr

/-- The `circuit_id` context string of a handler: either `"circuit_<n>"`
(the cell arrived through a circuit we terminate) or a non-circuit marker
(arrived directly over the UDP socket).  The source discriminates with
`circuit_id.startswith(u"circuit_")` and parses `int(circuit_id[8:])`. -/
inductive CircuitCtx where
  | fromCircuit (cid : CircuitId)
  | fromSocket
  deriving DecidableEq, Repr

inductive CircuitType where
  | data
  | ip
  | rp
  | rendezvous
  deriving DecidableEq, Repr

/-- The closure passed to `create_circuit`, reified as data. -/
inductive CircuitCallback where
  | introPoint (info_hash : Bytes)
  | rendezvousPoint (info_hash : Bytes)
  | linkE2E (cookie : Bytes) (session_keys : SessionKeys) (info_hash : Bytes) (sock_addr : SockAddr)
  deriving DecidableEq, Repr

/-! Payloads (fields as in payload.py; encoded blobs such as `pex_peers` are
modelled structurally because the `encode`/`decode` codec is an external
collaborator). -/

structure LinkE2EPayload where
  circuit_id : CircuitId
  identifier : Nat
  cookie : Bytes
  deriving DecidableEq, Repr

structure CreateE2EPayload where
  identifier : Nat
  info_hash : Bytes
  node_id : Bytes
  node_public_key : Bytes
  key : Bytes
  deriving DecidableEq, Repr

structure CreatedE2EPayload where
  identifier : Nat
  key : Bytes
  auth : Bytes
  rp_sock_addr : Bytes
  deriving DecidableEq, Repr

structure KeyRequestPayload where
  identifier : Nat
  info_hash : Bytes
  deriving DecidableEq, Repr

structure KeyResponsePayload where
  identifier : Nat
  public_key : Bytes
  pex_peers : List (SockAddr × Bytes)
  deriving DecidableEq, Repr

structure DHTResponsePayload where
  circuit_id : CircuitId
  identifier : Nat
  info_hash : Bytes
  peers : List SockAddr
  deriving DecidableEq, Repr

/-- Modelled from the spec: the request-cache entry variants of caches.py
(§3 data model), which is not part of the sources; `KeyRequest` and
`KeyRelay` share the `u"key-request"` cache kind. -/
inductive KeyReqEntry where
  | request (circuit : CircuitId) (sock_addr : SockAddr) (info_hash : Bytes)
  | relay (relay_circuit : CircuitId) (identifier : Nat) (return_sock_addr : SockAddr) (info_hash : Bytes)
  deriving DecidableEq, Repr

/-- Modelled from the spec: `DHTRequest{circuit, lookup_id}` cache entry. -/
structure DHTRequestEntry where
  circuit : CircuitId
  info_hash : Bytes
  deriving DecidableEq, Repr

/-- Modelled from the spec: `E2ERequest{info_hash, circuit, hop, sock_addr}`
cache entry; the hop carries the downloader's DH secret and the seeder's
public key. -/
structure E2EEntry where
  info_hash : Bytes
  circuit : CircuitId
  hop_public_key : Bytes
  dh_secret : Bytes
  sock_addr : SockAddr
  deriving DecidableEq, Repr

inductive Msg where
  | keyRequest (identifier : Nat) (info_hash : Bytes)
  | keyResponse (identifier : Nat) (public_key : Bytes) (pex_peers : List (SockAddr × Bytes))
  | createE2E (identifier : Nat) (info_hash : Bytes) (node_id : Bytes) (node_public_key : Bytes) (key : Bytes)
  | linkedE2E (circuit_id : CircuitId) (identifier : Nat)
  | dhtRequest (circuit_id : CircuitId) (identifier : Nat) (info_hash : Bytes)
  | establishIntro (circuit_id : CircuitId) (identifier : Nat) (info_hash : Bytes)
  deriving DecidableEq, Repr

/-- Outward actions of a handler: sends and calls into the substrate or into
other engine methods (the latter reified so each method is specified once). -/
inductive Effect where
  | sendCell (dests : List SockAddr) (msg : Msg)
  | tunnelData (circuit : CircuitId) (dest : SockAddr) (msg : Msg)
  | sendPacket (dest : SockAddr) (msg : Msg)
  | createCircuit (goal_hops : Nat) (ctype : CircuitType) (callback : CircuitCallback)
      (required_exit : Option Peer) (info_hash : Bytes)
  | callCreateKeyRequest (info_hash : Bytes) (sock_addr : SockAddr)
  | callCreateE2E (circuit : CircuitId) (sock_addr : SockAddr) (info_hash : Bytes) (public_key : Bytes)
  | callCreateRendezvousPoint (hops : Nat) (info_hash : Bytes)
  deriving DecidableEq, Repr

/-- The mutable tables of `HiddenTunnelCommunity` plus the substrate maps it
reads (`exit_sockets`, `relay_from_to`, `circuits`) and the typed request
caches.  Defaults give the fresh state of `__init__`. -/
structure State where
  session_keys : List (Bytes × SessionKey) := []
  my_intro_points : List (CircuitId × List Bytes) := []
  my_download_points : List (CircuitId × (Bytes × Nat × SockAddr)) := []
  intro_point_for : List (Bytes × TunnelExitSocket) := []
  rendezvous_point_for : List (Bytes × TunnelExitSocket) := []
  infohash_rp_circuits : List (Bytes × List CircuitId) := []
  infohash_ip_circuits : List (Bytes × List (CircuitId × Nat)) := []
  infohash_pex : List (Bytes × List (SockAddr × Bytes)) := []
  dht_blacklist : List (Bytes × List (Nat × SockAddr)) := []
  last_dht_lookup : List (Bytes × Nat) := []
  hops : List (Bytes × Nat) := []
  service_callbacks : List (Bytes × Nat) := []
  exit_sockets : List (CircuitId × TunnelExitSocket) := []
  relay_from_to : List (CircuitId × RelayRoute) := []
  circuits : List (CircuitId × Circuit) := []
  dht_request_cache : List (Nat × DHTRequestEntry) := []
  key_request_cache : List (Nat × KeyReqEntry) := []
  e2e_request_cache : List (Nat × E2EEntry) := []
  deriving DecidableEq, Repr

/-- The engine state right after `__init__`: every table empty. -/
def initialState : State := {}

/-! ## Handlers (hidden_services.py), one definition per source method -/

/-- Modelled from the spec: the substrate's `remove_exit_socket` (an external
operation of the tunnel community) deletes the exit socket registered for a
circuit id; §4.2 Phase E describes the splice as removing both exit sockets. -/
def remove_exit_socket (s : State) (circuit_id : CircuitId) : State :=
  { s with exit_sockets := eraseA s.exit_sockets circuit_id }

/-- Modelled from the spec: `is_relay` of the tunnel substrate answers whether
a circuit id is an entry of the `relay_from_to` table. -/
def is_relay (s : State) (circuit_id : CircuitId) : Bool :=
  (lookupA s.relay_from_to circuit_id).isSome

/-- `check_link_e2e` (hidden_services.py:378).  Faithful to the source: when
the relay circuit's exit socket is enabled the source only logs a warning and
still falls through to `return True`. -/
def check_link_e2e (s : State) (payload : LinkE2EPayload) (ctx : CircuitCtx) :
    Except String Bool :=
  match ctx with
  | .fromSocket => .ok false
  | .fromCircuit circuit_id =>
    if (lookupA s.rendezvous_point_for payload.cookie).isNone then .ok false
    else
      match lookupA s.exit_sockets circuit_id with
      | none => .error "KeyError"
      | some es =>
        if es.enabled then .ok false
        else
          match lookupA s.rendezvous_point_for payload.cookie with
          | none => .error "KeyError"
          | some relay_circuit =>
            match lookupA s.exit_sockets relay_circuit.circuit_id with
            | none => .error "KeyError"
            | some _ => .ok true

/-- `on_link_e2e` (hidden_services.py:396): splice the two exit sockets into a
bidirectional rendezvous relay and confirm with linked-e2e. -/
def on_link_e2e (s : State) (source_address : SockAddr) (payload : LinkE2EPayload)
    (ctx : CircuitCtx) : Except String (State × List Effect) := do
  let ok ← check_link_e2e s payload ctx
  if !ok then return (s, [])
  match ctx with
  | .fromSocket => return (s, [])
  | .fromCircuit cid =>
    match lookupA s.exit_sockets cid, lookupA s.rendezvous_point_for payload.cookie with
    | some circuit, some relay_circuit =>
      let s1 := remove_exit_socket s circuit.circuit_id
      let s2 := remove_exit_socket s1 relay_circuit.circuit_id
      let fwd := insertA s2.relay_from_to circuit.circuit_id
        ⟨relay_circuit.circuit_id, relay_circuit.sock_addr, true, relay_circuit.mid⟩
      let s3 := { s2 with relay_from_to := fwd }
      let bwd := insertA s3.relay_from_to relay_circuit.circuit_id
        ⟨circuit.circuit_id, circuit.sock_addr, true, circuit.mid⟩
      let s4 := { s3 with relay_from_to := bwd }
      return (s4, [.sendCell [source_address] (.linkedE2E circuit.circuit_id payload.identifier)])
    | _, _ => .error "KeyError"

/-- `on_create_e2e` (hidden_services.py:299).  In socket context the source
indexes `self.intro_point_for[payload.info_hash]` without any check, so an
unknown info_hash raises `KeyError`; in circuit context it likewise indexes
`self.hops[payload.info_hash]` and then builds a rendezvous point. -/
def on_create_e2e (s : State) (source_address : SockAddr) (payload : CreateE2EPayload)
    (ctx : CircuitCtx) : Except String (State × List Effect) :=
  match ctx with
  | .fromSocket =>
    match lookupA s.intro_point_for payload.info_hash with
    | none => .error "KeyError"
    | some relay_circuit =>
      .ok (s, [.tunnelData relay_circuit.circuit_id source_address
        (.createE2E payload.identifier payload.info_hash payload.node_id
          payload.node_public_key payload.key)])
  | .fromCircuit _ =>
    match lookupA s.hops payload.info_hash with
    | none => .error "KeyError"
    | some h => .ok (s, [.callCreateRendezvousPoint h payload.info_hash])

/-- Modelled from the spec: `TunnelCommunity.remove_circuit` (the substrate
superclass, not part of the sources) removes the circuit from the substrate
maps; §4.2 says the engine defers to it. -/
def substrate_remove_circuit (s : State) (circuit_id : CircuitId) : State :=
  { s with circuits := eraseA s.circuits circuit_id,
           exit_sockets := eraseA s.exit_sockets circuit_id,
           relay_from_to := eraseA s.relay_from_to circuit_id }

/-- `remove_circuit` (hidden_services.py:101): defer to the substrate, then
pop `my_intro_points[circuit_id]` and `my_download_points[circuit_id]`. -/
def remove_circuit (s : State) (circuit_id : CircuitId) : State :=
  let s1 := substrate_remove_circuit s circuit_id
  { s1 with my_intro_points := eraseA s1.my_intro_points circuit_id,
            my_download_points := eraseA s1.my_download_points circuit_id }

/-- `create_introduction_point` (hidden_services.py:443): install a session
key for the service if absent, then build `amount` IP circuits of length
`hops[info_hash] + 1` (the id of each created circuit is supplied by the
substrate, here `freshCid`).  With `amount = 0` the loop body never runs, so
a missing hops entry is only an error when `amount > 0`. -/
def create_introduction_point (s : State) (info_hash : Bytes) (amount : Nat)
    (freshKey : SessionKey) (freshCid : Nat → CircuitId) (now : Nat) :
    Except String (State × List Effect) :=
  let s1 := if (lookupA s.session_keys info_hash).isSome then s
            else { s with session_keys := insertA s.session_keys info_hash freshKey }
  if amount = 0 then .ok (s1, [])
  else
    match lookupA s1.hops info_hash with
    | none => .error "KeyError"
    | some h =>
      let ipcs := insertA s1.infohash_ip_circuits info_hash
        (((lookupA s1.infohash_ip_circuits info_hash).getD []) ++
          (List.range amount).map (fun i => (freshCid i, now)))
      .ok ({ s1 with infohash_ip_circuits := ipcs },
           (List.range amount).map (fun _ =>
             Effect.createCircuit (h + 1) .ip (.introPoint info_hash) none info_hash))

/-- `register_service` (hidden_services.py:62): store the hop count and the
callback under the LookupId, then create introduction points only when
`create_intros` is truthy. -/
def register_service (s : State) (service : Bytes) (hopCount : Nat) (callback : Nat)
    (create_intros : Nat) (freshKey : SessionKey) (freshCid : Nat → CircuitId) (now : Nat) :
    Except String (State × List Effect) :=
  let lookup_service := get_lookup_info_hash service
  let s1 := { s with hops := insertA s.hops lookup_service hopCount,
                     service_callbacks := insertA s.service_callbacks lookup_service callback }
  if create_intros ≠ 0 then
    create_introduction_point s1 lookup_service create_intros freshKey freshCid now
  else
    .ok (s1, [])

/-- `do_raw_dht_lookup` (hidden_services.py:118): `self.hops[lookup_info_hash]`
is evaluated as an argument of `selection_strategy.select`, so a missing hops
entry raises before any circuit is selected.  The selection strategy is an
external collaborator, passed in as `select`. -/
def do_raw_dht_lookup (s : State) (lookup_info_hash : Bytes) (select : Nat → Option Circuit)
    (now : Nat) (cacheNum : Nat) : Except String (State × List Effect) :=
  match lookupA s.hops lookup_info_hash with
  | none => .error "KeyError"
  | some h =>
    match select h with
    | none => .ok (s, [])
    | some circuit =>
      .ok ({ s with last_dht_lookup := insertA s.last_dht_lookup lookup_info_hash now,
                    dht_request_cache := s.dht_request_cache ++
                      [(cacheNum, ⟨circuit.circuit_id, lookup_info_hash⟩)] },
           [.sendCell [circuit.sock_addr]
              (.dhtRequest circuit.circuit_id cacheNum lookup_info_hash)])

/-- `do_dht_lookup` (hidden_services.py:115). -/
def do_dht_lookup (s : State) (info_hash : Bytes) (select : Nat → Option Circuit)
    (now : Nat) (cacheNum : Nat) : Except String (State × List Effect) :=
  do_raw_dht_lookup s (get_lookup_info_hash info_hash) select now cacheNum

/-- `create_key_request` (hidden_services.py:188): same `self.hops[info_hash]`
argument evaluation, then a KeyRequest cache entry and a tunnelled
key-request. -/
def create_key_request (s : State) (info_hash : Bytes) (sock_addr : SockAddr)
    (select : Nat → Option Circuit) (cacheNum : Nat) : Except String (State × List Effect) :=
  match lookupA s.hops info_hash with
  | none => .error "KeyError"
  | some h =>
    match select h with
    | none => .ok (s, [])
    | some circuit =>
      .ok ({ s with key_request_cache := s.key_request_cache ++
               [(cacheNum, .request circuit.circuit_id sock_addr info_hash)] },
           [.tunnelData circuit.circuit_id sock_addr (.keyRequest cacheNum info_hash)])

/-- `check_key_request` (hidden_services.py:202): socket context requires an
`intro_point_for` entry, circuit context requires a `session_keys` entry. -/
def check_key_request (s : State) (payload : KeyRequestPayload) (ctx : CircuitCtx) : Bool :=
  match ctx with
  | .fromSocket => (lookupA s.intro_point_for payload.info_hash).isSome
  | .fromCircuit _ => (lookupA s.session_keys payload.info_hash).isSome

/-- `on_key_request` (hidden_services.py:216): an intro point registers a
KeyRelay entry and forwards the key-request toward the seeder; the seeder
answers through the circuit with its service key and at most 50 PEX peers. -/
def on_key_request (s : State) (source_address : SockAddr) (payload : KeyRequestPayload)
    (ctx : CircuitCtx) (cacheNum : Nat) (my_estimated_wan : SockAddr) :
    Except String (State × List Effect) :=
  if !check_key_request s payload ctx then .ok (s, [])
  else
    match ctx with
    | .fromSocket =>
      match lookupA s.intro_point_for payload.info_hash with
      | none => .error "KeyError"
      | some relay_circuit =>
        .ok ({ s with key_request_cache := s.key_request_cache ++
                 [(cacheNum, .relay relay_circuit.circuit_id payload.identifier
                     source_address payload.info_hash)] },
             [.tunnelData relay_circuit.circuit_id my_estimated_wan
                (.keyRequest cacheNum payload.info_hash)])
    | .fromCircuit cid =>
      match lookupA s.session_keys payload.info_hash with
      | none => .error "KeyError"
      | some key =>
        match lookupA s.circuits cid with
        | none => .error "KeyError"
        | some circuit =>
          let pex_peers := (lookupA s.infohash_pex payload.info_hash).getD []
          .ok (s, [.tunnelData circuit.circuit_id source_address
                    (.keyResponse payload.identifier key.pub (pex_peers.take 50))])

/-- `check_key_response` (hidden_services.py:247): the identifier must match a
pending `u"key-request"` cache entry. -/
def check_key_response (s : State) (payload : KeyResponsePayload) : Bool :=
  (lookupA s.key_request_cache payload.identifier).isSome

/-- `on_key_response` (hidden_services.py:252): over a socket, re-pack under
the original identifier and return it to the cached socket address; over a
circuit, pop the KeyRequest entry, fold the response and its PEX list into
`infohash_pex`, then fire `create_e2e` for every pex peer of the service --
guarded only by `cache.info_hash not in self.infohash_ip_circuits`. -/
def on_key_response (s : State) (payload : KeyResponsePayload) (ctx : CircuitCtx) :
    Except String (State × List Effect) :=
  if !check_key_response s payload then .ok (s, [])
  else
    match ctx with
    | .fromSocket =>
      match lookupA s.key_request_cache payload.identifier with
      | some (.relay _ identifier return_sock_addr _) =>
        .ok ({ s with key_request_cache := eraseA s.key_request_cache payload.identifier },
             [.sendPacket return_sock_addr
                (.keyResponse identifier payload.public_key payload.pex_peers)])
      | some (.request _ _ _) => .error "AttributeError"
      | none => .error "KeyError"
    | .fromCircuit _ =>
      match lookupA s.key_request_cache payload.identifier with
      | some (.request cacheCircuit cacheSockAddr cacheInfoHash) =>
        let s1 := { s with key_request_cache := eraseA s.key_request_cache payload.identifier }
        let pex0 := (lookupA s1.infohash_pex cacheInfoHash).getD []
        let pex1 := addSet pex0 (cacheSockAddr, payload.public_key)
        let pex2 := payload.pex_peers.foldl addSet pex1
        let s2 := { s1 with infohash_pex := insertA s1.infohash_pex cacheInfoHash pex2 }
        let effs := pex2.foldl (fun acc peer =>
          if (lookupA s2.infohash_ip_circuits cacheInfoHash).isNone then
            acc ++ [Effect.callCreateE2E cacheCircuit peer.1 cacheInfoHash peer.2]
          else acc) []
        .ok (s2, effs)
      | some (.relay _ _ _ _) => .error "AttributeError"
      | none => .error "KeyError"

/-- `check_dht_response` (hidden_services.py:155): a non-relay receiver
requires a matching `u"dht-request"` cache entry; a relay always passes. -/
def check_dht_response (s : State) (payload : DHTResponsePayload) : Bool :=
  if !is_relay s payload.circuit_id then
    (lookupA s.dht_request_cache payload.identifier).isSome
  else true

/-- `on_dht_response` (hidden_services.py:161): pop the dht-request entry,
lazily evict blacklist entries older than 60 s, then for every received peer
that is neither a seeder address of an own download point nor currently
blacklisted, append a fresh blacklist entry and call `create_key_request`.
Python's `set(peers)` is `dedup`; the source reads `time.time()` during the
single handler run, modelled by one `now`. -/
def on_dht_response (s : State) (payload : DHTResponsePayload) (now : Nat) :
    State × List Effect :=
  if !check_dht_response s payload then (s, [])
  else
    let s0 := { s with dht_request_cache := eraseA s.dht_request_cache payload.identifier }
    let info_hash := payload.info_hash
    let peers := payload.peers.dedup
    let blacklist := ((lookupA s0.dht_blacklist info_hash).getD []).filter
      (fun e => !decide (now - e.1 > 60))
    let exclude := s0.my_download_points.map (fun p => p.2.2.2) ++ blacklist.map (fun e => e.2)
    let r := peers.foldl (fun acc peer =>
      if peer ∈ exclude then acc
      else (acc.1 ++ [(now, peer)], acc.2 ++ [Effect.callCreateKeyRequest info_hash peer]))
      (blacklist, [])
    ({ s0 with dht_blacklist := insertA s0.dht_blacklist info_hash r.1 }, r.2)

/-- The cryptographic primitives used by `on_created_e2e`, external
collaborators of the engine (crypto module and the `encode`/`decode` codec):
DH verification (`none` = CryptoVerificationFailed), session-key derivation,
symmetric decryption, and decoding of the `(rp_info, cookie)` pair. -/
structure TunnelCrypto where
  verify_and_generate_shared_secret : Bytes → Bytes → Bytes → Bytes → Option Bytes
  generate_session_keys : Bytes → SessionKeys
  decrypt_str : Bytes → Bytes → Bytes → Bytes
  decode_rp_info : Bytes → (SockAddr × Bytes) × Bytes

/-- `check_created_e2e` (hidden_services.py:329): circuit context plus a
pending `u"e2e-request"` entry. -/
def check_created_e2e (s : State) (payload : CreatedE2EPayload) (ctx : CircuitCtx) : Bool :=
  match ctx with
  | .fromSocket => false
  | .fromCircuit _ => (lookupA s.e2e_request_cache payload.identifier).isSome

/-- `on_created_e2e` (hidden_services.py:339): pop the E2ERequest entry,
verify AUTH and derive the shared secret, derive session keys, decrypt and
decode `(rp_info, cookie)`, then build a RENDEZVOUS circuit of length
`hops[info_hash] + 1` pinned to the seeder-chosen rendezvous peer, with
`create_link_e2e` as its completion callback. -/
def on_created_e2e (crypto : TunnelCrypto) (s : State) (payload : CreatedE2EPayload)
    (ctx : CircuitCtx) : Except String (State × List Effect) :=
  if !check_created_e2e s payload ctx then .ok (s, [])
  else
    match lookupA s.e2e_request_cache payload.identifier with
    | none => .error "KeyError"
    | some cache =>
      let s1 := { s with e2e_request_cache := eraseA s.e2e_request_cache payload.identifier }
      match crypto.verify_and_generate_shared_secret cache.dh_secret payload.key
              payload.auth cache.hop_public_key with
      | none => .error "CryptoVerificationFailed"
      | some shared_secret =>
        let session_keys := crypto.generate_session_keys shared_secret
        let decoded := crypto.decode_rp_info
          (crypto.decrypt_str payload.rp_sock_addr session_keys.exit_node session_keys.exit_node_salt)
        let rp_info := decoded.1
        let cookie := decoded.2
        let required_exit : Peer := ⟨rp_info.2, rp_info.1⟩
        match lookupA s1.hops cache.info_hash with
        | none => .error "KeyError"
        | some h =>
          .ok (s1, [.createCircuit (h + 1) .rendezvous
                     (.linkE2E cookie session_keys cache.info_hash cache.sock_addr)
                     (some required_exit) cache.info_hash])

/-! ## Claim theorems -/

def esLink : TunnelExitSocket := ⟨1, (10, 10), [7], false⟩

def esRelayEnabled : TunnelExitSocket := ⟨2, (20, 20), [8], true⟩

def stLink : State :=
  { exit_sockets := [(1, esLink), (2, esRelayEnabled)],
    rendezvous_point_for := [([5], esRelayEnabled)] }

/-- C1: at a state where the cookie is known and the incoming exit socket is
disabled but the stored relay circuit's exit socket IS enabled,
`on_link_e2e` still performs the splice and replies linked-e2e: both exit
sockets are removed and both relay directions installed, although the claim
requires the message to be dropped in this situation.  `check_link_e2e` only
logs "cannot link" for the enabled relay exit socket and falls through to
`return True`. -/
theorem on_link_e2e_enabled_relay_bug :
    esRelayEnabled.enabled = true ∧
    on_link_e2e stLink (30, 30) ⟨1, 42, [5]⟩ (.fromCircuit 1) =
      .ok ({ rendezvous_point_for := [([5], esRelayEnabled)],
             relay_from_to := [(1, ⟨2, (20, 20), true, [8]⟩), (2, ⟨1, (10, 10), true, [7]⟩)] },
           [.sendCell [(30, 30)] (.linkedE2E 1 42)]) :=
  ⟨rfl, rfl⟩

/-- C2: `on_create_e2e` invoked over a socket (non-circuit context) for an
info_hash with no `intro_point_for` entry raises an uncaught `KeyError`
instead of logging and dropping, so the handler does let an exception escape
to the substrate. -/
theorem on_create_e2e_unknown_infohash_raises :
    on_create_e2e initialState (1, 1) ⟨3, [9], [1], [2], [4]⟩ .fromSocket =
      .error "KeyError" := rfl

def stRemove : State :=
  { infohash_ip_circuits := [([1], [(5, 100)])],
    rendezvous_point_for := [([9], ⟨5, (1, 1), [2], false⟩)],
    my_download_points := [(5, ([1], 2, (3, 3)))] }

/-- C4 (counterexample): after `remove_circuit 5`, the `infohash_ip_circuits`
entry `(5, 100)` and the `rendezvous_point_for` exit socket with circuit id 5
both survive, so it is false that no surviving table entry references the
removed circuit id. -/
theorem remove_circuit_counterexample :
    (remove_circuit stRemove 5).infohash_ip_circuits = [([1], [(5, 100)])] ∧
    (remove_circuit stRemove 5).rendezvous_point_for = [([9], ⟨5, (1, 1), [2], false⟩)] ∧
    lookupA (remove_circuit stRemove 5).my_download_points 5 = none :=
  ⟨rfl, rfl, rfl⟩

/-- C4 (amended): `remove_circuit cid` scrubs `my_intro_points[cid]`,
`my_download_points[cid]` and the substrate maps, but leaves
`infohash_ip_circuits`, `infohash_rp_circuits`, `intro_point_for` and
`rendezvous_point_for` untouched, so entries referencing `cid` can survive
there. -/
theorem remove_circuit_scrub_spec (s : State) (cid : CircuitId) :
    lookupA (remove_circuit s cid).my_intro_points cid = none ∧
    lookupA (remove_circuit s cid).my_download_points cid = none ∧
    lookupA (remove_circuit s cid).circuits cid = none ∧
    lookupA (remove_circuit s cid).exit_sockets cid = none ∧
    lookupA (remove_circuit s cid).relay_from_to cid = none ∧
    (remove_circuit s cid).infohash_ip_circuits = s.infohash_ip_circuits ∧
    (remove_circuit s cid).infohash_rp_circuits = s.infohash_rp_circuits ∧
    (remove_circuit s cid).intro_point_for = s.intro_point_for ∧
    (remove_circuit s cid).rendezvous_point_for = s.rendezvous_point_for ∧
    (remove_circuit s cid).session_keys = s.session_keys := by
  refine ⟨?_, ?_, ?_, ?_, ?_, rfl, rfl, rfl, rfl, rfl⟩ <;>
    simp [remove_circuit, substrate_remove_circuit, lookupA_eraseA_self]

def svcTwenty : Bytes := List.replicate 20 65

/-- C5 (counterexample): `register_service` with `create_intros = 0` installs
the hop count and the callback but never calls `create_introduction_point`,
so no `session_keys` entry exists for the registered service — refuting the
claim that the keypair exists for every value of `create_intros`. -/
theorem register_service_zero_intros_counterexample :
    register_service initialState svcTwenty 1 0 0 ⟨[1]⟩ (fun _ => 0) 0 =
      .ok ({ hops := [(get_lookup_info_hash svcTwenty, 1)],
             service_callbacks := [(get_lookup_info_hash svcTwenty, 0)] }, []) ∧
    lookupA ({ hops := [(get_lookup_info_hash svcTwenty, 1)],
               service_callbacks := [(get_lookup_info_hash svcTwenty, 0)] } : State).session_keys
      (get_lookup_info_hash svcTwenty) = none :=
  ⟨rfl, rfl⟩

/-- C5 (amended): after `register_service(service, hops, callback,
create_intros)` the session key for `LookupId(service)` exists when
`create_intros ≠ 0`; with `create_intros = 0` the `session_keys` table is
left unchanged, so the key exists only if it existed before.  In both cases
`register_service` installs no session key under any identifier other than
`LookupId(service)`, so `session_keys` still holds entries only for
registered services. -/
theorem register_service_session_keys_spec (s : State) (service : Bytes) (hopCount cb n : Nat)
    (key : SessionKey) (freshCid : Nat → CircuitId) (now : Nat) :
    (n ≠ 0 → ∃ s' effs, register_service s service hopCount cb n key freshCid now = .ok (s', effs) ∧
      (lookupA s'.session_keys (get_lookup_info_hash service)).isSome ∧
      ∀ x, x ≠ get_lookup_info_hash service →
        lookupA s'.session_keys x = lookupA s.session_keys x) ∧
    (n = 0 → ∃ s', register_service s service hopCount cb n key freshCid now = .ok (s', []) ∧
      s'.session_keys = s.session_keys) := by
  constructor
  · intro hn
    unfold register_service create_introduction_point
    rw [if_pos hn, if_neg hn]
    dsimp only
    by_cases hsk : (lookupA s.session_keys (get_lookup_info_hash service)).isSome
    · rw [if_pos hsk]
      dsimp only
      rw [lookupA_insertA_self]
      exact ⟨_, _, rfl, hsk, fun _ _ => rfl⟩
    · rw [if_neg hsk]
      dsimp only
      rw [lookupA_insertA_self]
      refine ⟨_, _, rfl, by simp [lookupA_insertA_self], ?_⟩
      intro x hx
      exact lookupA_insertA_ne _ _ _ _ (Ne.symm hx)
  · intro hn
    subst hn
    unfold register_service
    simp only [ne_eq, not_true_eq_false, ite_false]
    exact ⟨_, rfl, rfl⟩

/-- C5 (witness for the amended theorem). -/
theorem register_service_session_keys_spec_witness :
    (1 : Nat) ≠ 0 ∧
    (∃ s' effs, register_service initialState svcTwenty 2 0 1 ⟨[1]⟩ (fun i => i) 0 = .ok (s', effs) ∧
      (lookupA s'.session_keys (get_lookup_info_hash svcTwenty)).isSome ∧
      ∀ x, x ≠ get_lookup_info_hash svcTwenty →
        lookupA s'.session_keys x = lookupA initialState.session_keys x) :=
  ⟨by decide,
   (register_service_session_keys_spec initialState svcTwenty 2 0 1 ⟨[1]⟩ (fun i => i) 0).1
     (by decide)⟩

/-- C10: `do_raw_dht_lookup` and `create_key_request` evaluate
`self.hops[info_hash]` as an argument before any circuit is selected, so a
service whose LookupId is absent from `hops` raises an uncaught KeyError;
the table starts empty at `__init__`, and `register_service` is what installs
the hop count under the LookupId. -/
theorem hops_precondition_spec (s : State) (l : Bytes) (sock_addr : SockAddr)
    (select : Nat → Option Circuit) (now num : Nat)
    (hmiss : lookupA s.hops l = none) :
    do_raw_dht_lookup s l select now num = .error "KeyError" ∧
    create_key_request s l sock_addr select num = .error "KeyError" ∧
    lookupA initialState.hops l = none ∧
    (∀ service hv cb key freshCid now2 s' effs,
      register_service s service hv cb 0 key freshCid now2 = .ok (s', effs) →
      lookupA s'.hops (get_lookup_info_hash service) = some hv) := by
  refine ⟨?_, ?_, rfl, ?_⟩
  · simp [do_raw_dht_lookup, hmiss]
  · simp [create_key_request, hmiss]
  · intro service hv cb key freshCid now2 s' effs hreg
    unfold register_service at hreg
    simp only [ne_eq, not_true_eq_false, ite_false, if_neg, Except.ok.injEq, Prod.mk.injEq] at hreg
    rw [← hreg.1]
    exact lookupA_insertA_self _ _ _

/-- C10 (witness): the fresh engine state has no hops entry, and a raw DHT
lookup there raises. -/
theorem hops_precondition_spec_witness :
    lookupA initialState.hops [3] = none ∧
    do_raw_dht_lookup initialState [3] (fun _ => none) 0 0 = .error "KeyError" :=
  ⟨rfl, (hops_precondition_spec initialState [3] (0, 0) (fun _ => none) 0 0 rfl).1⟩

/-- A `for x in xs: if c: out.append(f x)` loop whose guard does not depend on
the element, folded from `acc`. -/
theorem foldl_guard_append {α β : Type} (c : Bool) (f : α → β) (l : List α) (acc : List β) :
    l.foldl (fun a x => if c then a ++ [f x] else a) acc
      = acc ++ (if c then l.map f else []) := by
  induction l generalizing acc with
  | nil => simp
  | cons hd t ih => cases c <;> simp_all [List.append_assoc]

def stPex : State :=
  { infohash_ip_circuits := [([1], [(9, 5)])],
    infohash_pex := [([1], [((4, 4), [11])])],
    key_request_cache := [(7, .request 2 (4, 4) [1])] }

/-- C3 (counterexample): at the downloader, with `infohash_rp_circuits` empty
(no peer is mapped to any RP circuit) but an `infohash_ip_circuits` entry
present for the service, `on_key_response` initiates no `create_e2e` at all,
although the pex peer `((4,4),[11])` is in `infohash_pex` and unmapped: the
guard tests `infohash_ip_circuits`, not per-peer RP mappings. -/
theorem on_key_response_guard_counterexample :
    on_key_response stPex ⟨7, [11], []⟩ (.fromCircuit 2) =
      .ok ({ infohash_ip_circuits := [([1], [(9, 5)])],
             infohash_pex := [([1], [((4, 4), [11])])] }, []) ∧
    ((4, 4), [11]) ∈ (lookupA
      ({ infohash_ip_circuits := [([1], [(9, 5)])],
         infohash_pex := [([1], [((4, 4), [11])])] } : State).infohash_pex [1]).getD [] ∧
    stPex.infohash_rp_circuits = [] :=
  ⟨rfl, by decide, rfl⟩

/-- C3 (amended): after `on_key_response` over a circuit, `create_e2e` is
initiated for a pex peer of the service iff the peer is in the updated
`infohash_pex[info_hash]` and `info_hash` is not a key of
`infohash_ip_circuits`; the guard never consults `infohash_rp_circuits` or
any per-peer RP mapping. -/
theorem on_key_response_create_e2e_guard (s : State) (payload : KeyResponsePayload)
    (cid : CircuitId) (cc : CircuitId) (csa : SockAddr) (cih : Bytes)
    (hc : lookupA s.key_request_cache payload.identifier = some (.request cc csa cih)) :
    ∃ s' effs, on_key_response s payload (.fromCircuit cid) = .ok (s', effs) ∧
      ∀ p : SockAddr × Bytes,
        Effect.callCreateE2E cc p.1 cih p.2 ∈ effs ↔
          p ∈ (lookupA s'.infohash_pex cih).getD [] ∧
            lookupA s.infohash_ip_circuits cih = none := by
  unfold on_key_response check_key_response
  rw [hc]
  dsimp only
  refine ⟨_, _, rfl, ?_⟩
  intro p
  rw [foldl_guard_append]
  rw [lookupA_insertA_self]
  by_cases hip : lookupA s.infohash_ip_circuits cih = none
  · simp [hip]
  · simp [hip, Option.isNone_iff_eq_none]

def stPexW : State := { key_request_cache := [(3, .request 1 (2, 2) [4])] }

/-- C3 (witness for the amended theorem). -/
theorem on_key_response_create_e2e_guard_witness :
    ∃ s' effs, on_key_response stPexW ⟨3, [5], [((6, 6), [7])]⟩ (.fromCircuit 1) =
        .ok (s', effs) ∧
      ∀ p : SockAddr × Bytes,
        Effect.callCreateE2E 1 p.1 [4] p.2 ∈ effs ↔
          p ∈ (lookupA s'.infohash_pex [4]).getD [] ∧
            lookupA stPexW.infohash_ip_circuits [4] = none :=
  on_key_response_create_e2e_guard stPexW ⟨3, [5], [((6, 6), [7])]⟩ 1 1 (2, 2) [4] rfl

/-- Blacklist entries of `dht_blacklist[info_hash]` surviving the lazy 60 s
eviction of `on_dht_response`. -/
def dht_evicted (s : State) (info_hash : Bytes) (now : Nat) : List (Nat × SockAddr) :=
  ((lookupA s.dht_blacklist info_hash).getD []).filter (fun e => !decide (now - e.1 > 60))

/-- The peers `on_dht_response` excludes: the seeder addresses of the own
download points plus the currently blacklisted addresses. -/
def dht_exclude (s : State) (info_hash : Bytes) (now : Nat) : List SockAddr :=
  s.my_download_points.map (fun p => p.2.2.2) ++ (dht_evicted s info_hash now).map (fun e => e.2)

/-- The received peers that are neither own download points nor currently
blacklisted. -/
def dht_fresh (s : State) (payload : DHTResponsePayload) (now : Nat) : List SockAddr :=
  payload.peers.dedup.filter (fun p => decide (p ∉ dht_exclude s payload.info_hash now))

/-- The loop of `on_dht_response`, characterised as filter-and-map. -/
theorem dht_foldl_char (exclude : List SockAddr) (info_hash : Bytes) (now : Nat)
    (peers : List SockAddr) (b : List (Nat × SockAddr)) (e : List Effect) :
    peers.foldl (fun acc peer => if peer ∈ exclude then acc
        else (acc.1 ++ [(now, peer)], acc.2 ++ [Effect.callCreateKeyRequest info_hash peer]))
      (b, e)
      = (b ++ (peers.filter (fun p => decide (p ∉ exclude))).map (fun p => (now, p)),
         e ++ (peers.filter (fun p => decide (p ∉ exclude))).map
           (fun p => Effect.callCreateKeyRequest info_hash p)) := by
  induction peers generalizing b e with
  | nil => simp
  | cons hd t ih =>
    by_cases hm : hd ∈ exclude
    · simp [hm, ih]
    · simp [hm, ih]

/-- C6: a valid non-relayed dht-response pops the dht-request cache entry,
first evicts the blacklist entries of the service older than 60 s, and then
appends a fresh `(now, peer)` blacklist entry and calls `create_key_request`
exactly for the received peers that are neither own download-point seeder
addresses nor currently blacklisted. -/
theorem on_dht_response_spec (s : State) (payload : DHTResponsePayload) (now : Nat)
    (hrel : is_relay s payload.circuit_id = false)
    (hcache : (lookupA s.dht_request_cache payload.identifier).isSome = true) :
    (on_dht_response s payload now).1.dht_request_cache
        = eraseA s.dht_request_cache payload.identifier ∧
    (on_dht_response s payload now).1.dht_blacklist
        = insertA s.dht_blacklist payload.info_hash
            (dht_evicted s payload.info_hash now ++
              (dht_fresh s payload now).map (fun p => (now, p))) ∧
    (on_dht_response s payload now).2
        = (dht_fresh s payload now).map
            (fun p => Effect.callCreateKeyRequest payload.info_hash p) ∧
    ∀ p, p ∈ payload.peers.dedup →
      (Effect.callCreateKeyRequest payload.info_hash p ∈ (on_dht_response s payload now).2 ↔
        p ∉ dht_exclude s payload.info_hash now) := by
  unfold on_dht_response check_dht_response
  rw [hrel, hcache]
  simp only [Bool.not_false, Bool.not_true, Bool.false_eq_true, eq_self_iff_true, if_true,
    if_false, ite_true, ite_false]
  rw [dht_foldl_char]
  simp only [dht_evicted, dht_exclude, dht_fresh, List.nil_append]
  refine ⟨trivial, trivial, trivial, ?_⟩
  intro p hp
  simp only [List.mem_map, List.mem_filter, Effect.callCreateKeyRequest.injEq,
    decide_eq_true_eq]
  constructor
  · rintro ⟨q, ⟨hq, hqe⟩, -, hqp⟩
    subst hqp
    exact hqe
  · intro hpe
    exact ⟨p, ⟨hp, hpe⟩, trivial, rfl⟩

def stDht : State :=
  { dht_request_cache := [(7, ⟨1, [1]⟩)],
    my_download_points := [(3, ([1], 1, (50, 50)))],
    dht_blacklist := [([1], [(0, (60, 60)), (90, (70, 70))])] }

/-- C6 (witness): concrete dht-response at time 100 with the entry of time 0
evicted, peers (50,50) and (70,70) excluded, and (80,80) fresh. -/
theorem on_dht_response_spec_witness :
    (on_dht_response stDht ⟨1, 7, [1], [(50, 50), (70, 70), (80, 80)]⟩ 100).1.dht_request_cache
        = eraseA stDht.dht_request_cache 7 ∧
    (Effect.callCreateKeyRequest [1] (80, 80) ∈
        (on_dht_response stDht ⟨1, 7, [1], [(50, 50), (70, 70), (80, 80)]⟩ 100).2 ↔
      (80, 80) ∉ dht_exclude stDht [1] 100) := by
  have h := on_dht_response_spec stDht ⟨1, 7, [1], [(50, 50), (70, 70), (80, 80)]⟩ 100
    (by decide) (by decide)
  exact ⟨h.1, h.2.2.2 (80, 80) (by decide)⟩

/-- C7: `on_key_request` replies iff the context-appropriate knowledge
exists: over a circuit the seeder answers with its service public key and at
most 50 pex peers iff `session_keys` knows the info_hash (an unknown one is
dropped with no reply and no cache entry); over a socket it registers a
KeyRelay entry and forwards iff `intro_point_for` knows the info_hash,
otherwise it drops. -/
theorem on_key_request_spec (s : State) (source_address : SockAddr)
    (payload : KeyRequestPayload) (cacheNum : Nat) (wan : SockAddr) (cid : CircuitId)
    (circ : Circuit) (hcirc : lookupA s.circuits cid = some circ) :
    (∀ key, lookupA s.session_keys payload.info_hash = some key →
      on_key_request s source_address payload (.fromCircuit cid) cacheNum wan =
        .ok (s, [.tunnelData circ.circuit_id source_address
          (.keyResponse payload.identifier key.pub
            (((lookupA s.infohash_pex payload.info_hash).getD []).take 50))]) ∧
      (((lookupA s.infohash_pex payload.info_hash).getD []).take 50).length ≤ 50) ∧
    (lookupA s.session_keys payload.info_hash = none →
      on_key_request s source_address payload (.fromCircuit cid) cacheNum wan = .ok (s, [])) ∧
    (∀ rc, lookupA s.intro_point_for payload.info_hash = some rc →
      on_key_request s source_address payload .fromSocket cacheNum wan =
        .ok ({ s with key_request_cache := s.key_request_cache ++
                 [(cacheNum, .relay rc.circuit_id payload.identifier source_address
                     payload.info_hash)] },
             [.tunnelData rc.circuit_id wan (.keyRequest cacheNum payload.info_hash)])) ∧
    (lookupA s.intro_point_for payload.info_hash = none →
      on_key_request s source_address payload .fromSocket cacheNum wan = .ok (s, [])) := by
  refine ⟨?_, ?_, ?_, ?_⟩
  · intro key hk
    refine ⟨?_, ?_⟩
    · unfold on_key_request check_key_request
      simp [hk, hcirc]
    · rw [List.length_take]
      exact min_le_left _ _
  · intro hk
    unfold on_key_request check_key_request
    simp [hk]
  · intro rc hrc
    unfold on_key_request check_key_request
    simp [hrc]
  · intro hrc
    unfold on_key_request check_key_request
    simp [hrc]

def stSeed : State :=
  { circuits := [(1, ⟨1, (5, 5), 2⟩)],
    session_keys := [([1], ⟨[9]⟩)] }

/-- C7 (witness): a seeder with a session key for `[1]` replies through the
circuit; the same node drops a socket key-request for the unknown `[1]`. -/
theorem on_key_request_spec_witness :
    on_key_request stSeed (6, 6) ⟨3, [1]⟩ (.fromCircuit 1) 11 (7, 7) =
      .ok (stSeed, [.tunnelData 1 (6, 6) (.keyResponse 3 [9] [])]) ∧
    on_key_request stSeed (6, 6) ⟨3, [1]⟩ .fromSocket 11 (7, 7) = .ok (stSeed, []) := by
  have h := on_key_request_spec stSeed (6, 6) ⟨3, [1]⟩ 11 (7, 7) 1 ⟨1, (5, 5), 2⟩ rfl
  exact ⟨(h.1 ⟨[9]⟩ rfl).1, h.2.2.2 rfl⟩

/-- C8: after a verified created-e2e, the downloader builds a circuit of role
RENDEZVOUS with goal length `hops[info_hash] + 1` whose required exit is the
seeder-chosen rendezvous peer from the decrypted rp_info, and whose
completion callback is `create_link_e2e` with the recovered cookie and the
derived session keys. -/
theorem on_created_e2e_spec (crypto : TunnelCrypto) (s : State) (payload : CreatedE2EPayload)
    (cid : CircuitId) (cache : E2EEntry) (shared : Bytes) (h : Nat)
    (rpa : SockAddr) (rpk : Bytes) (ck : Bytes)
    (hcache : lookupA s.e2e_request_cache payload.identifier = some cache)
    (hverify : crypto.verify_and_generate_shared_secret cache.dh_secret payload.key
        payload.auth cache.hop_public_key = some shared)
    (hhops : lookupA s.hops cache.info_hash = some h)
    (hdec : crypto.decode_rp_info (crypto.decrypt_str payload.rp_sock_addr
        (crypto.generate_session_keys shared).exit_node
        (crypto.generate_session_keys shared).exit_node_salt) = ((rpa, rpk), ck)) :
    on_created_e2e crypto s payload (.fromCircuit cid) =
      .ok ({ s with e2e_request_cache := eraseA s.e2e_request_cache payload.identifier },
        [.createCircuit (h + 1) .rendezvous
          (.linkE2E ck (crypto.generate_session_keys shared) cache.info_hash cache.sock_addr)
          (some ⟨rpk, rpa⟩) cache.info_hash]) := by
  unfold on_created_e2e check_created_e2e
  simp [hcache, hverify, hhops, hdec]

def cryptoConst : TunnelCrypto :=
  { verify_and_generate_shared_secret := fun _ _ _ _ => some [1],
    generate_session_keys := fun _ => ⟨[2], [3]⟩,
    decrypt_str := fun _ _ _ => [4],
    decode_rp_info := fun _ => (((8, 9), [5]), [6]) }

def stE2E : State :=
  { e2e_request_cache := [(4, ⟨[1], 2, [7], [8], (3, 3)⟩)],
    hops := [([1], 1)] }

/-- C8 (witness): with a constant crypto oracle, the created-e2e at the
downloader requests a rendezvous circuit of length `hops + 1 = 2` pinned to
the decoded rendezvous peer, with the link-e2e continuation. -/
theorem on_created_e2e_spec_witness :
    on_created_e2e cryptoConst stE2E ⟨4, [0], [0], [0]⟩ (.fromCircuit 2) =
      .ok ({ hops := [([1], 1)] },
        [.createCircuit 2 .rendezvous (.linkE2E [6] ⟨[2], [3]⟩ [1] (3, 3))
          (some ⟨[5], (8, 9)⟩) [1]]) :=
  on_created_e2e_spec cryptoConst stE2E ⟨4, [0], [0], [0]⟩ 2 ⟨[1], 2, [7], [8], (3, 3)⟩
    [1] 1 (8, 9) [5] [6] rfl rfl rfl rfl

/-- C9: for a 20-byte service identifier, `get_lookup_info_hash` is the
20-byte SHA1 digest of the string "tribler anonymous download" concatenated
with the hexadecimal encoding of the identifier, and `do_dht_lookup` passes
exactly this LookupId (not the raw identifier) down to the raw DHT lookup. -/
theorem get_lookup_info_hash_spec (service : Bytes) (_hlen : service.length = 20) :
    get_lookup_info_hash service =
      sha1 (strBytes "tribler anonymous download" ++ hexEncode service) ∧
    (get_lookup_info_hash service).length = 20 ∧
    (∀ s select now num, do_dht_lookup s service select now num =
      do_raw_dht_lookup s (get_lookup_info_hash service) select now num) :=
  ⟨rfl, sha1_length _, fun _ _ _ _ => rfl⟩

/-- C9 (witness). -/
theorem get_lookup_info_hash_spec_witness :
    (List.replicate 20 66).length = 20 ∧
    (get_lookup_info_hash (List.replicate 20 66)).length = 20 :=
  ⟨by decide, (get_lookup_info_hash_spec (List.replicate 20 66) (by decide)).2.1⟩

end HiddenServices
